import Mathlib

/-!
Shallow embedding of the YouTube Website Streamer relay core
(src/src/index.js and the variants in src/unnamed/part_001, part_002).

The program is a single class, WebsiteStreamer, with fields
browser / page / cdpSession / ffmpeg / isRunning / frameCount /
lastRefreshTime, plus a module-level CONFIG object and a main
restart loop.  We model the mutable instance state as a structure,
each method as a pure state-transition function (external
nondeterminism — OS pipe buffer status, screenshot success, clock
readings — is passed in as explicit arguments), and observable side
effects (pipe writes, signals, acknowledgments) as explicit action
values returned alongside the new state.
-/

namespace Streamer

/-- The ffmpeg child-process handle, as far as the streamer observes it:
the only property the code reads is whether stdin is writable
(this.ffmpeg.stdin.writable). -/
structure FFmpegProc where
  stdinWritable : Bool
deriving DecidableEq, Repr

/-- Mutable instance state of WebsiteStreamer (constructor, index.js
lines 99-107): browser, page, cdpSession and ffmpeg start as null,
isRunning false, frameCount 0, lastRefreshTime the current clock.
Handles other than ffmpeg are modelled by presence only (the code never
reads anything else from them). -/
structure StreamerState where
  browser : Bool
  page : Bool
  cdpSession : Bool
  ffmpeg : Option FFmpegProc
  isRunning : Bool
  frameCount : Nat
  lastRefreshTime : Nat
deriving DecidableEq, Repr

/-- The state a fresh WebsiteStreamer() starts in, at clock time now. -/
def initialState (now : Nat) : StreamerState :=
  { browser := false, page := false, cdpSession := false, ffmpeg := none,
    isRunning := false, frameCount := 0, lastRefreshTime := now }

/-- Truth value of the guard this.ffmpeg and this.ffmpeg.stdin.writable:
true exactly when an ffmpeg handle is present and its stdin is writable. -/
def ffmpegWritable (s : StreamerState) : Bool :=
  match s.ffmpeg with
  | none => false
  | some f => f.stdinWritable

/-- CONFIG.RESTART_DELAY (index.js line 45):
parseInt(process.env.RESTART_DELAY) || 5000.  The environment value is
modelled after parsing: none for unset/unparsable (NaN, falsy), and a
parsed 0 is also falsy, so both fall back to 5000. -/
def RESTART_DELAY (env : Option Nat) : Nat :=
  match env with
  | none => 5000
  | some n => if n = 0 then 5000 else n

/-- The hard-coded relaunch delay in the ffmpeg close handler
(index.js line 303): setTimeout(() => this.startFFmpeg(), 1000). -/
def ffmpegRelaunchDelayMs : Nat := 1000

/-- Outcome of sendFrameToFFmpeg as seen by its caller: false (frame
dropped), true (write accepted), or a pending promise that resolves
only when the stdin drain event fires (the write was backpressured). -/
inductive SendOutcome
  | dropped
  | sent
  | awaitingDrain
deriving DecidableEq, Repr

/-- sendFrameToFFmpeg (index.js lines 340-366).  Guard: if ffmpeg is
null or its stdin not writable, return false.  Otherwise write the
frame: canWrite is what stdin.write returned (false when the OS pipe
buffer is saturated), writeThrows models the write call raising (the
catch branch returns false before frameCount is incremented).  On a
non-throwing write frameCount is incremented; if canWrite is false the
returned value is a promise resolved by the next drain event. -/
def sendFrameToFFmpeg (s : StreamerState) (canWrite writeThrows : Bool) :
    SendOutcome × StreamerState :=
  match s.ffmpeg with
  | none => (.dropped, s)
  | some f =>
    if f.stdinWritable = false then (.dropped, s)
    else if writeThrows then (.dropped, s)
    else
      let s2 := { s with frameCount := s.frameCount + 1 }
      if canWrite then (.sent, s2) else (.awaitingDrain, s2)

/-- captureAndSendFrame (index.js lines 318-335).  Guard: if page is
null, ffmpeg is null, or stdin not writable, return false.  Then
page.screenshot may throw (captureOk = false: caught, returns false);
otherwise the screenshot is forwarded to sendFrameToFFmpeg. -/
def captureAndSendFrame (s : StreamerState) (captureOk canWrite writeThrows : Bool) :
    SendOutcome × StreamerState :=
  if s.page = false ∨ ffmpegWritable s = false then (.dropped, s)
  else if captureOk = false then (.dropped, s)
  else sendFrameToFFmpeg s canWrite writeThrows

/-- What the ffmpeg close handler can do next.  The source handler
(index.js lines 297-305) either schedules a relaunch of startFFmpeg
after a fixed delay or does nothing; the fatalSinkError constructor
exists so the crash-loop-escalation claim can be stated, and is never
produced by the code. -/
inductive CloseReaction
  | relaunchAfterMs (delay : Nat)
  | noRelaunch
  | fatalSinkError
deriving DecidableEq, Repr

/-- The this.ffmpeg close-event handler (index.js lines 297-305):
log a warning, set this.ffmpeg = null, and if isRunning schedule
startFFmpeg after 1000 ms; otherwise nothing. -/
def onFFmpegClose (s : StreamerState) : StreamerState × CloseReaction :=
  let s2 := { s with ffmpeg := none }
  if s2.isRunning then (s2, .relaunchAfterMs ffmpegRelaunchDelayMs)
  else (s2, .noRelaunch)

/-- Effect of startFFmpeg on the instance state (index.js lines
228-313): spawn a new ffmpeg child with a pipe stdin (writable)
and install it as this.ffmpeg. -/
def startFFmpegState (s : StreamerState) : StreamerState :=
  { s with ffmpeg := some { stdinWritable := true } }

/-- Run n consecutive ffmpeg crashes: each crash fires the close
handler, and when a relaunch was scheduled the timer fires and
startFFmpeg reinstalls a live handle before the next crash.  Returns
the final state and the reaction taken at each crash. -/
def runCrashes : Nat → StreamerState → StreamerState × List CloseReaction
  | 0, s => (s, [])
  | n + 1, s =>
    let p := onFFmpegClose s
    let s2 := match p.2 with
      | .relaunchAfterMs _ => startFFmpegState p.1
      | _ => p.1
    let q := runCrashes n s2
    (q.1, p.2 :: q.2)

/-- The externally observable steps stop performs, in order.  The
waitForExit and forceKill constructors exist so the graceful-shutdown
claim can be stated; this code never performs either. -/
inductive StopAction
  | stopScreencastSend
  | stdinEnd
  | killSIGTERM
  | browserClose
  | waitForExit
  | forceKill
deriving DecidableEq, Repr

/-- stopScreencast (index.js lines 428-438): if cdpSession is non-null,
send Page.stopScreencast and detach (any error is swallowed by the
empty catch), then set cdpSession = null. -/
def stopScreencast (s : StreamerState) : StreamerState × List StopAction :=
  if s.cdpSession then ({ s with cdpSession := false }, [.stopScreencastSend])
  else (s, [])

/-- stop (index.js lines 470-492): set isRunning = false; run
stopScreencast; if ffmpeg is non-null, end its stdin (end-of-stream),
send SIGTERM and null the handle — the method does NOT wait for the
child to exit and never escalates to a forced kill; if browser is
non-null, close it and null browser and page. -/
def stop (s : StreamerState) : StreamerState × List StopAction :=
  let s1 := { s with isRunning := false }
  let p := stopScreencast s1
  let q : StreamerState × List StopAction :=
    match p.1.ffmpeg with
    | some _ => ({ p.1 with ffmpeg := none }, [.stdinEnd, .killSIGTERM])
    | none => (p.1, [])
  let r : StreamerState × List StopAction :=
    if q.1.browser then ({ q.1 with browser := false, page := false }, [.browserClose])
    else (q.1, [])
  (r.1, p.2 ++ q.2 ++ r.2)

/-- refreshPageIfNeeded (index.js lines 191-198): compute the time
since the last refresh; when it has reached CONFIG.PAGE_REFRESH_INTERVAL,
reload the page (loadPage, lines 168-186, whose success path sets
lastRefreshTime to the current clock).  Returns the new state and
whether the rejuvenation fired. -/
def refreshPageIfNeeded (s : StreamerState) (now interval : Nat) :
    StreamerState × Bool :=
  if interval ≤ now - s.lastRefreshTime
  then ({ s with lastRefreshTime := now }, true)
  else (s, false)

/-- One iteration of the keep-alive loop inside startScreencast
(index.js lines 413-422): the loop body runs only while isRunning, and
each pass calls refreshPageIfNeeded.  Before the loop is entered, and
after stop clears isRunning, no rejuvenation check happens. -/
def screencastLoopIter (s : StreamerState) (now interval : Nat) :
    StreamerState × Bool :=
  if s.isRunning then refreshPageIfNeeded s now interval
  else (s, false)

/-- validateConfig (index.js lines 84-94): throw when CONFIG.STREAM_KEY
is falsy — the STREAM_KEY environment variable unset (undefined) or the
empty string.  Otherwise log and return. -/
def validateConfig (streamKey : Option String) : Except String Unit :=
  match streamKey with
  | none => .error "STREAM_KEY not set"
  | some k => if k = "" then .error "STREAM_KEY not set" else .ok ()

/-- How far the process boot got. -/
inductive BootOutcome
  | exitWithCode (code : Nat)
  | enteredRestartLoop
deriving DecidableEq, Repr

/-- Boot sequence of main (index.js lines 497-541) together with the
top-level catch (lines 538-541): main calls validateConfig before
constructing the WebsiteStreamer or entering the while(true) restart
loop; a validateConfig throw propagates out of main into
main().catch, which logs and calls process.exit(1). -/
def mainBoot (streamKey : Option String) : BootOutcome :=
  match validateConfig streamKey with
  | .error _ => .exitWithCode 1
  | .ok _ => .enteredRestartLoop

/-! ### Polled variant (src/unnamed/part_001) -/

/-- captureAndSendFrame of the polled variant (part_001 lines 289-336).
Guard: page null, ffmpeg null or stdin not writable returns false.
page.screenshot may throw (captureOk = false, caught, false).  The
frame is then written with a completion callback: writeErr models the
callback receiving an error (resolve false, no increment); on success
frameCount is incremented and the promise resolves true.  When the
write reports a saturated buffer the promise additionally resolves true
on the next drain event; either way the caller only resumes after the
write has completed or drained. -/
def captureAndSendFramePolled (s : StreamerState) (captureOk writeErr : Bool) :
    Bool × StreamerState :=
  if s.page = false ∨ ffmpegWritable s = false then (false, s)
  else if captureOk = false then (false, s)
  else if writeErr then (false, s)
  else (true, { s with frameCount := s.frameCount + 1 })

/-- Status of one pass of the startCapturing loop.  The
fatalSourceError constructor exists so the consecutive-failure
escalation claim can be stated; the loop body never produces it. -/
inductive LoopStatus
  | continued
  | exited
  | fatalSourceError
deriving DecidableEq, Repr

/-- Per-tick nondeterministic inputs of a startCapturing pass. -/
structure TickInput where
  captureOk : Bool
  writeErr : Bool
deriving DecidableEq, Repr

/-- One pass of the startCapturing while-loop (part_001 lines 341-371):
when isRunning is false the loop exits; otherwise it awaits
captureAndSendFrame, and on failure merely logs a warning — the loop
always proceeds to the next tick, with no failure counter and no
escalation. -/
def startCapturingIter (s : StreamerState) (inp : TickInput) :
    StreamerState × LoopStatus :=
  if s.isRunning = false then (s, .exited)
  else
    let p := captureAndSendFramePolled s inp.captureOk inp.writeErr
    (p.2, .continued)

/-- Run the startCapturing loop over a list of tick inputs, collecting
the status of each pass. -/
def runCapturing : StreamerState → List TickInput → StreamerState × List LoopStatus
  | s, [] => (s, [])
  | s, inp :: rest =>
    let p := startCapturingIter s inp
    let q := runCapturing p.1 rest
    (q.1, p.2 :: q.2)

/-! ### Pipe-level event traces for the backpressure property -/

/-- Events at the encoder-pipe boundary: a frame write into ffmpeg
stdin, an await of the stdin drain event, and the
Page.screencastFrameAck sent back to the CDP session. -/
inductive IOEvent
  | writeFrame (seq : Nat)
  | drainWait
  | ackToSession (seq : Nat)
deriving DecidableEq, Repr

/-- Pipe-event trace of the polled capture loop (part_001: each
startCapturing pass awaits captureAndSendFrame, whose promise — when
stdin.write returned false — resolves only on the next drain event, so
a backpressured write is followed by a drain await before the loop can
issue the next write).  The list gives each write's canWrite result;
sequencing starts at frame index i. -/
def polledSendTrace : List Bool → Nat → List IOEvent
  | [], _ => []
  | cw :: rest, i =>
    (IOEvent.writeFrame i :: if cw then [] else [IOEvent.drainWait]) ++
      polledSendTrace rest (i + 1)

/-- The Page.screencastFrame handler of the pushed variant (index.js
lines 379-398): guard on isRunning and a writable ffmpeg stdin; then
call sendFrameToFFmpeg WITHOUT awaiting its result, and immediately
await Page.screencastFrameAck.  The returned trace shows the ack
follows the write directly, with no drain await even when the write
was backpressured. -/
def screencastFrameHandler (s : StreamerState) (seq : Nat)
    (canWrite writeThrows : Bool) : StreamerState × List IOEvent :=
  if s.isRunning = false ∨ ffmpegWritable s = false then (s, [])
  else
    let p := sendFrameToFFmpeg s canWrite writeThrows
    (p.2, [IOEvent.writeFrame seq, IOEvent.ackToSession seq])

/-! ### Event model for the frame sequence counter -/

/-- The two events that touch frameCount or lastRefreshTime during a
run: a frame handed to sendFrameToFFmpeg, and a page rejuvenation
(refreshPageIfNeeded firing loadPage, whose success path sets
lastRefreshTime to the clock and touches nothing else — in particular
frameCount is NOT reset). -/
inductive RunEvent
  | frame (canWrite writeThrows : Bool)
  | refresh (now : Nat)
deriving DecidableEq, Repr

/-- Effect of one run event on the streamer state. -/
def stepEvent (s : StreamerState) : RunEvent → StreamerState
  | .frame cw wt => (sendFrameToFFmpeg s cw wt).2
  | .refresh now => { s with lastRefreshTime := now }

/-- Fold a list of run events over the state. -/
def runEvents : StreamerState → List RunEvent → StreamerState
  | s, [] => s
  | s, e :: es => runEvents (stepEvent s e) es

/-- A convenient fully-live state for witnesses: browser, page and CDP
session up, a writable ffmpeg child installed, isRunning true. -/
def liveState (frameCount lastRefresh : Nat) : StreamerState :=
  { browser := true, page := true, cdpSession := true,
    ffmpeg := some { stdinWritable := true }, isRunning := true,
    frameCount := frameCount, lastRefreshTime := lastRefresh }

/-! ### Helper lemmas -/

/-- Closed form of the state stop leaves behind: running flag cleared,
CDP session, ffmpeg handle and browser nulled; page is nulled exactly
when a browser was present (the code nulls this.page only inside the
if (this.browser) branch). -/
theorem stop_fst_eq (s : StreamerState) :
    (stop s).1 = { s with
      isRunning := false, cdpSession := false, ffmpeg := none,
      browser := false, page := (if s.browser then false else s.page) } := by
  cases hc : s.cdpSession <;> rcases hf : s.ffmpeg with _ | f <;>
    cases hb : s.browser <;>
    simp [stop, stopScreencast, hc, hf, hb]

/-- One run event never decreases frameCount. -/
theorem stepEvent_frameCount_le (s : StreamerState) (e : RunEvent) :
    s.frameCount ≤ (stepEvent s e).frameCount := by
  cases e with
  | frame cw wt =>
    rcases hf : s.ffmpeg with _ | f
    · simp [stepEvent, sendFrameToFFmpeg, hf]
    · simp only [stepEvent, sendFrameToFFmpeg, hf]
      split
      · simp
      · split
        · simp
        · split <;> simp
  | refresh now => simp [stepEvent]

/-- Over any event list frameCount is monotone non-decreasing. -/
theorem runEvents_frameCount_mono (evs : List RunEvent) (s : StreamerState) :
    s.frameCount ≤ (runEvents s evs).frameCount := by
  induction evs generalizing s with
  | nil => simp [runEvents]
  | cons e es ih =>
    exact le_trans (stepEvent_frameCount_le s e) (ih (stepEvent s e))

/-! ### Claim theorems -/

/-- C9: if the required STREAM_KEY configuration setting is missing at
boot (environment variable unset, or set to the empty string), the
process fails at startup: validateConfig throws before the
WebsiteStreamer is constructed, so the unbounded restart loop is never
entered and the top-level main().catch exits the process with code 1. -/
theorem missing_stream_key_exits_before_loop (streamKey : Option String)
    (h : streamKey = none ∨ streamKey = some "") :
    validateConfig streamKey = .error "STREAM_KEY not set"
    ∧ mainBoot streamKey = .exitWithCode 1
    ∧ mainBoot streamKey ≠ .enteredRestartLoop := by
  rcases h with h | h <;> subst h <;> simp [mainBoot, validateConfig]

/-- Witness for C9 at the concrete unset environment. -/
theorem missing_stream_key_exits_before_loop_witness :
    mainBoot none = .exitWithCode 1 :=
  (missing_stream_key_exits_before_loop none (Or.inl rfl)).2.1

/-- C10: sending a frame while no encoder subprocess is live or its
stdin is not writable (for example during the relaunch delay after a
crash, or after stop) never throws: both sendFrameToFFmpeg and
captureAndSendFrame detect the condition in their guards, return
false, and leave the streamer state unchanged. -/
theorem send_without_live_encoder_safe (s : StreamerState) (cap cw wt : Bool)
    (h : ffmpegWritable s = false) :
    sendFrameToFFmpeg s cw wt = (.dropped, s)
    ∧ captureAndSendFrame s cap cw wt = (.dropped, s) := by
  constructor
  · rcases hf : s.ffmpeg with _ | f
    · simp [sendFrameToFFmpeg, hf]
    · have hw : f.stdinWritable = false := by
        simpa [ffmpegWritable, hf] using h
      simp [sendFrameToFFmpeg, hf, hw]
  · simp [captureAndSendFrame, h]

/-- Witness for C10 at the state the close handler leaves behind
(encoder handle nulled during the relaunch delay). -/
theorem send_without_live_encoder_safe_witness :
    sendFrameToFFmpeg (onFFmpegClose (liveState 5 0)).1 true false
      = (.dropped, (onFFmpegClose (liveState 5 0)).1) :=
  (send_without_live_encoder_safe (onFFmpegClose (liveState 5 0)).1
    true true false (by decide)).1

/-- C5: on an encoder subprocess exit event, if the relay is still
running the close handler schedules a relaunch after the fixed 1000 ms
delay — strictly shorter than the top-level restart delay at its
default (RESTART_DELAY unset, 5000 ms) — and never surfaces a fatal
error; and on any exit event after stop() has completed (isRunning
false), no relaunch is scheduled. -/
theorem encoder_relaunch_iff_running (s : StreamerState) (env : Option Nat)
    (henv : env = none) :
    (s.isRunning = true →
        (onFFmpegClose s).2 = .relaunchAfterMs ffmpegRelaunchDelayMs
        ∧ ffmpegRelaunchDelayMs < RESTART_DELAY env
        ∧ (onFFmpegClose s).2 ≠ .fatalSinkError)
    ∧ (stop s).1.isRunning = false
    ∧ (onFFmpegClose (stop s).1).2 = .noRelaunch := by
  subst henv
  have h := stop_fst_eq s
  refine ⟨fun hr => ⟨?_, ?_, ?_⟩, ?_, ?_⟩
  · simp [onFFmpegClose, hr]
  · simp [ffmpegRelaunchDelayMs, RESTART_DELAY]
  · simp [onFFmpegClose, hr]
  · rw [h]
  · rw [h]; simp [onFFmpegClose]

/-- Witness for C5 at a live running state and the default restart
delay. -/
theorem encoder_relaunch_iff_running_witness :
    (onFFmpegClose (liveState 0 0)).2 = .relaunchAfterMs 1000
    ∧ (onFFmpegClose (stop (liveState 0 0)).1).2 = .noRelaunch := by
  have h := encoder_relaunch_iff_running (liveState 0 0) none rfl
  exact ⟨(h.1 (by decide)).1, h.2.2⟩

/-- C8: stop is idempotent — a second stop performs no actions (so it
cannot raise: every step of the first call is guarded by a null check,
and the second call skips all of them) and leaves the state unchanged;
after one stop the running flag is false and browser, page, CDP
session and ffmpeg handles are all null.  The hypothesis records the
run invariant that a page handle only exists while a browser does (the
code only ever assigns this.page after this.browser). -/
theorem stop_idempotent (s : StreamerState)
    (hpage : s.page = true → s.browser = true) :
    stop (stop s).1 = ((stop s).1, [])
    ∧ (stop s).1.isRunning = false
    ∧ (stop s).1.browser = false
    ∧ (stop s).1.page = false
    ∧ (stop s).1.cdpSession = false
    ∧ (stop s).1.ffmpeg = none := by
  have h := stop_fst_eq s
  refine ⟨?_, ?_, ?_, ?_, ?_, ?_⟩
  · rw [h]; rfl
  · rw [h]
  · rw [h]
  · rw [h]
    cases hb : s.browser
    · have hp : s.page = false := by
        cases hpg : s.page
        · rfl
        · exact absurd (hpage hpg) (by simp [hb])
      simp [hp]
    · simp
  · rw [h]
  · rw [h]

/-- Witness for C8 at a fully live state. -/
theorem stop_idempotent_witness :
    stop (stop (liveState 3 7)).1 = ((stop (liveState 3 7)).1, [])
    ∧ (stop (liveState 3 7)).1.page = false := by
  have h := stop_idempotent (liveState 3 7) (by decide)
  exact ⟨h.1, h.2.2.2.1⟩

/-- C6: the frame sequence counter is monotonically non-decreasing
over any run, increases by exactly one for each frame actually handed
to the encoder (a write that was not dropped), and a rejuvenation
never resets it: a refresh leaves frameCount unchanged, so the first
frame handed over after a rejuvenation carries the successor count
(118 then 119), only the session clock having been reset. -/
theorem frame_sequence_monotone_across_refresh (s : StreamerState)
    (evs : List RunEvent) (cw wt : Bool) (now : Nat) :
    s.frameCount ≤ (runEvents s evs).frameCount
    ∧ (stepEvent s (.refresh now)).frameCount = s.frameCount
    ∧ ((sendFrameToFFmpeg s cw wt).1 ≠ .dropped →
        (stepEvent s (.frame cw wt)).frameCount = s.frameCount + 1)
    ∧ (ffmpegWritable s = true → wt = false →
        (stepEvent (stepEvent s (.refresh now)) (.frame cw wt)).frameCount
          = s.frameCount + 1) := by
  refine ⟨runEvents_frameCount_mono evs s, rfl, ?_, ?_⟩
  · intro hnd
    rcases hf : s.ffmpeg with _ | f
    · simp [sendFrameToFFmpeg, hf] at hnd
    · by_cases hw : f.stdinWritable = false
      · simp [sendFrameToFFmpeg, hf, hw] at hnd
      · cases ht : wt
        · cases cw <;> simp [stepEvent, sendFrameToFFmpeg, hf, hw, ht]
        · simp [sendFrameToFFmpeg, hf, hw, ht] at hnd
  · intro hwr hwt
    rcases hf : s.ffmpeg with _ | f
    · simp [ffmpegWritable, hf] at hwr
    · have hft : f.stdinWritable = true := by
        simpa [ffmpegWritable, hf] using hwr
      cases cw <;> simp [stepEvent, sendFrameToFFmpeg, hf, hft, hwt]

/-- Witness for C6: from frame count 118, a rejuvenation followed by a
delivered frame yields frame count 119. -/
theorem frame_sequence_monotone_across_refresh_witness :
    (stepEvent (stepEvent (liveState 118 0) (.refresh 9))
        (.frame true false)).frameCount = 119 := by
  have h := frame_sequence_monotone_across_refresh (liveState 118 0) [] true false 9
  exact h.2.2.2 (by decide) rfl

/-- C7: a keep-alive loop pass fires the rejuvenation exactly when the
pipeline is running and the session age has reached the configured
interval; on firing the age clock resets to the current instant (age
zero); it never fires below the interval; it never fires outside the
running state (before startScreencast sets isRunning, or once stop has
cleared it); and having fired, an immediate re-check at the same
instant does not fire again, for any positive interval. -/
theorem rejuvenation_fires_exactly_at_interval (s : StreamerState)
    (now interval : Nat) :
    ((screencastLoopIter s now interval).2 = true ↔
        s.isRunning = true ∧ interval ≤ now - s.lastRefreshTime)
    ∧ ((screencastLoopIter s now interval).2 = true →
        (screencastLoopIter s now interval).1.lastRefreshTime = now)
    ∧ (s.isRunning = false → screencastLoopIter s now interval = (s, false))
    ∧ (0 < interval → (screencastLoopIter s now interval).2 = true →
        (screencastLoopIter (screencastLoopIter s now interval).1
          now interval).2 = false) := by
  cases hr : s.isRunning
  · refine ⟨?_, ?_, ?_, ?_⟩
    · simp [screencastLoopIter, hr]
    · simp [screencastLoopIter, hr]
    · intro _; simp [screencastLoopIter, hr]
    · simp [screencastLoopIter, hr]
  · by_cases hd : interval ≤ now - s.lastRefreshTime
    · refine ⟨?_, ?_, ?_, ?_⟩
      · simp [screencastLoopIter, refreshPageIfNeeded, hr, hd]
      · intro _; simp [screencastLoopIter, refreshPageIfNeeded, hr, hd]
      · intro h0; simp at h0
      · intro hpos _
        have hfst : (screencastLoopIter s now interval).1
            = { s with lastRefreshTime := now } := by
          simp [screencastLoopIter, refreshPageIfNeeded, hr, hd]
        rw [hfst]
        have hne : ¬ interval = 0 := by omega
        simp [screencastLoopIter, refreshPageIfNeeded, hr, hne]
    · refine ⟨?_, ?_, ?_, ?_⟩
      · simp [screencastLoopIter, refreshPageIfNeeded, hr, hd]
      · intro h0
        simp [screencastLoopIter, refreshPageIfNeeded, hr, hd] at h0
      · intro h0; simp at h0
      · intro _ h0
        simp [screencastLoopIter, refreshPageIfNeeded, hr, hd] at h0

/-- Witness for C7: with a 10-unit interval and 10 units elapsed the
rejuvenation fires, and an immediate re-check does not fire again. -/
theorem rejuvenation_fires_exactly_at_interval_witness :
    (screencastLoopIter (liveState 0 0) 10 10).2 = true
    ∧ (screencastLoopIter (screencastLoopIter (liveState 0 0) 10 10).1
        10 10).2 = false := by
  have h := rejuvenation_fires_exactly_at_interval (liveState 0 0) 10 10
  have hf : (screencastLoopIter (liveState 0 0) 10 10).2 = true :=
    h.1.mpr ⟨rfl, by decide⟩
  exact ⟨hf, h.2.2.2 (by decide) hf⟩

/-- C1 counterexample: four consecutive encoder crashes from a live
running state — crossing the claimed 3-crash threshold — produce four
unconditional relaunch reactions and no fatal SinkError: the claimed
escalation never happens, the encoder is simply relaunched again. -/
theorem crash_loop_never_escalates_cex :
    (runCrashes 4 (liveState 0 0)).2
      = [.relaunchAfterMs 1000, .relaunchAfterMs 1000,
         .relaunchAfterMs 1000, .relaunchAfterMs 1000]
    ∧ CloseReaction.fatalSinkError ∉ (runCrashes 4 (liveState 0 0)).2 := by
  decide

/-- C1 amended: the ffmpeg close handler has no crash-loop threshold —
every encoder exit while the relay is running schedules a relaunch
after the fixed 1000 ms delay, for arbitrarily many consecutive
crashes, and a fatal SinkError is never surfaced to the supervisor. -/
theorem crash_relaunch_unconditional (n : Nat) (s : StreamerState)
    (h : s.isRunning = true) :
    (runCrashes n s).2
      = List.replicate n (.relaunchAfterMs ffmpegRelaunchDelayMs) := by
  induction n generalizing s with
  | zero => rfl
  | succ k ih =>
    have hp : (onFFmpegClose s).2
        = CloseReaction.relaunchAfterMs ffmpegRelaunchDelayMs := by
      simp [onFFmpegClose, h]
    have h2 : (startFFmpegState (onFFmpegClose s).1).isRunning = true := by
      simp [startFFmpegState, onFFmpegClose, h]
    simp only [runCrashes, hp, List.replicate_succ, List.cons.injEq, true_and]
    exact ih _ h2

/-- Witness for the amended C1 at five crashes from a live state. -/
theorem crash_relaunch_unconditional_witness :
    (runCrashes 5 (liveState 2 9)).2
      = List.replicate 5 (.relaunchAfterMs ffmpegRelaunchDelayMs) :=
  crash_relaunch_unconditional 5 (liveState 2 9) rfl

/-- Every pass of the startCapturing loop reports continued or exited;
the fatal constructor is unreachable. -/
theorem runCapturing_statuses (s : StreamerState) (inps : List TickInput) :
    ∀ st ∈ (runCapturing s inps).2,
      st = LoopStatus.continued ∨ st = LoopStatus.exited := by
  induction inps generalizing s with
  | nil => intro st h; simp [runCapturing] at h
  | cons i rest ih =>
    intro st h
    simp only [runCapturing, List.mem_cons] at h
    rcases h with h1 | h2
    · subst h1
      cases hr : s.isRunning
      · right; simp [startCapturingIter, hr]
      · left; simp [startCapturingIter, hr]
    · exact ih _ _ h2

/-- C3 counterexample: three consecutive acquisition failures from a
live running state leave the capture loop continuing (three continued
passes) and produce no fatal SourceError — the claimed escalation
after three consecutive failures never happens. -/
theorem acquisition_failures_never_escalate_cex :
    (runCapturing (liveState 0 0)
        (List.replicate 3 { captureOk := false, writeErr := false })).2
      = [.continued, .continued, .continued]
    ∧ LoopStatus.fatalSourceError ∉
        (runCapturing (liveState 0 0)
          (List.replicate 3 { captureOk := false, writeErr := false })).2 := by
  decide

/-- C3 amended: a single acquisition failure is logged and its tick
dropped without aborting — the failed tick leaves the state unchanged
— but there is no consecutive-failure counter: the startCapturing loop
never produces a fatal SourceError for any input sequence, and while
running every pass simply continues to the next tick. -/
theorem capture_failures_never_fatal (s : StreamerState)
    (inps : List TickInput) (inp : TickInput) (hrun : s.isRunning = true) :
    LoopStatus.fatalSourceError ∉ (runCapturing s inps).2
    ∧ (startCapturingIter s inp).2 = .continued
    ∧ (captureAndSendFramePolled s false inp.writeErr).2 = s := by
  refine ⟨?_, ?_, ?_⟩
  · intro hmem
    rcases runCapturing_statuses s inps _ hmem with h | h <;> simp at h
  · simp [startCapturingIter, hrun]
  · by_cases hg : s.page = false ∨ ffmpegWritable s = false <;>
      simp [captureAndSendFramePolled, hg]

/-- Witness for the amended C3 at a live state and a failing tick. -/
theorem capture_failures_never_fatal_witness :
    (startCapturingIter (liveState 1 2)
        { captureOk := false, writeErr := false }).2 = .continued := by
  have h := capture_failures_never_fatal (liveState 1 2)
      (List.replicate 3 { captureOk := false, writeErr := false })
      { captureOk := false, writeErr := false } (by decide)
  exact h.2.1

/-- C4 counterexample: stopping with a live encoder subprocess yields
exactly the actions stop-screencast, stdin end, SIGTERM, browser close
— stop returns right after signalling: it never waits for the
subprocess to exit and never issues a forced kill, contradicting the
claimed wait-until-exit-or-grace-timeout shutdown. -/
theorem stop_returns_without_waiting_cex :
    (stop (liveState 7 0)).2
      = [.stopScreencastSend, .stdinEnd, .killSIGTERM, .browserClose]
    ∧ StopAction.waitForExit ∉ (stop (liveState 7 0)).2
    ∧ StopAction.forceKill ∉ (stop (liveState 7 0)).2 := by
  decide

/-- C4 amended: whenever an encoder subprocess is live, stop closes
its input pipe (end-of-stream) and sends a SIGTERM termination signal,
then nulls the handle and returns immediately — it does not wait for
the subprocess to exit, and no grace timeout or forced kill exists. -/
theorem stop_signals_encoder_without_waiting (s : StreamerState)
    (f : FFmpegProc) (h : s.ffmpeg = some f) :
    StopAction.stdinEnd ∈ (stop s).2
    ∧ StopAction.killSIGTERM ∈ (stop s).2
    ∧ StopAction.waitForExit ∉ (stop s).2
    ∧ StopAction.forceKill ∉ (stop s).2
    ∧ (stop s).1.ffmpeg = none := by
  cases hc : s.cdpSession <;> cases hb : s.browser <;>
    simp [stop, stopScreencast, hc, hb, h]

/-- Witness for the amended C4 at a live state. -/
theorem stop_signals_encoder_without_waiting_witness :
    StopAction.stdinEnd ∈ (stop (liveState 0 4)).2
    ∧ StopAction.forceKill ∉ (stop (liveState 0 4)).2 := by
  have h := stop_signals_encoder_without_waiting (liveState 0 4)
      { stdinWritable := true } rfl
  exact ⟨h.1, h.2.2.2.1⟩

/-- C2 counterexample: in the pushed (screencast) variant, with the
pipe buffer saturated the write is backpressured (its result is a
pending drain promise), yet the handler acknowledges the frame to the
session immediately, and the next frame arrives and is written with no
drain await anywhere in the trace — a subsequent send occurs before
any drain signal. -/
theorem pushed_ack_without_drain_cex :
    (sendFrameToFFmpeg (liveState 0 0) false false).1 = .awaitingDrain
    ∧ (screencastFrameHandler (liveState 0 0) 0 false false).2
        = [.writeFrame 0, .ackToSession 0]
    ∧ (screencastFrameHandler
          (screencastFrameHandler (liveState 0 0) 0 false false).1
          1 false false).2
        = [.writeFrame 1, .ackToSession 1]
    ∧ IOEvent.drainWait ∉
        ((screencastFrameHandler (liveState 0 0) 0 false false).2 ++
          (screencastFrameHandler
            (screencastFrameHandler (liveState 0 0) 0 false false).1
            1 false false).2) := by
  decide

/-- In the polled trace, a backpressured write is immediately followed
by a drain await, so no further write precedes the drain. -/
theorem polledSendTrace_drain_adjacent (cws : List Bool) :
    ∀ i j, cws.get? j = some false →
      ∃ pre post, polledSendTrace cws i
        = pre ++ IOEvent.writeFrame (i + j) :: IOEvent.drainWait :: post := by
  induction cws with
  | nil => intro i j h; simp at h
  | cons cw rest ih =>
    intro i j h
    cases j with
    | zero =>
      have hcw : cw = false := by simpa using h
      subst hcw
      exact ⟨[], polledSendTrace rest (i + 1), by simp [polledSendTrace]⟩
    | succ k =>
      have h2 : rest.get? k = some false := by simpa using h
      obtain ⟨pre, post, hp⟩ := ih (i + 1) k h2
      refine ⟨(IOEvent.writeFrame i ::
        if cw then [] else [IOEvent.drainWait]) ++ pre, post, ?_⟩
      have harith : i + 1 + k = i + (k + 1) := by omega
      simp [polledSendTrace, hp, harith]

/-- C2 amended: the backpressure discipline holds for the polled
variant — a backpressured write is followed by a drain await before
any subsequent write, because the capture loop awaits the returned
promise before its next tick — but not for the pushed variant: the
screencast handler does not await the send result and acknowledges the
frame to the session immediately after the write, without awaiting a
drain, even when the write was backpressured. -/
theorem backpressure_polled_awaits_pushed_acks (cws : List Bool)
    (i j : Nat) (hj : cws.get? j = some false) (s : StreamerState)
    (seq : Nat) (cw wt : Bool) (hrun : s.isRunning = true)
    (hw : ffmpegWritable s = true) :
    (∃ pre post, polledSendTrace cws i
        = pre ++ IOEvent.writeFrame (i + j) :: IOEvent.drainWait :: post)
    ∧ (screencastFrameHandler s seq cw wt).2
        = [IOEvent.writeFrame seq, IOEvent.ackToSession seq] := by
  refine ⟨polledSendTrace_drain_adjacent cws i j hj, ?_⟩
  simp [screencastFrameHandler, hrun, hw]

/-- Witness for the amended C2: a concrete polled trace with a
backpressured second write, and a concrete pushed frame that is acked
immediately despite a saturated buffer. -/
theorem backpressure_polled_awaits_pushed_acks_witness :
    (∃ pre post, polledSendTrace [true, false, true] 0
        = pre ++ IOEvent.writeFrame 1 :: IOEvent.drainWait :: post)
    ∧ (screencastFrameHandler (liveState 9 0) 42 false false).2
        = [IOEvent.writeFrame 42, IOEvent.ackToSession 42] := by
  have h := backpressure_polled_awaits_pushed_acks [true, false, true] 0 1
      (by decide) (liveState 9 0) 42 false false rfl (by decide)
  exact ⟨h.1, h.2⟩

end Streamer
